import Mathlib

/-!
Verification development for the ec2-ssh discovery-selection-dispatch
pipeline. The definitions below are a shallow embedding of the Go source:
`ec2.go` (instance listing, filter validation, connection resolution) and
the orchestrator file (`Run`, `connectToInstance`, `handleSSOError`).
Go strings are Lean `String`s (a list of characters); `*string` fields that
may be nil are `Option String`; external effects (provider pagination,
process spawns, printed lines, exit) are made explicit as data.
-/

namespace Ec2ssh

/-! ## Go string helpers

`splitFirstEq` embeds `strings.SplitN(s, "=", 2)`: the Go call returns a
one-element slice exactly when `s` has no `=`, modeled as a `none` second
component; otherwise the text before the first `=` and the whole remainder. -/

def splitFirstEq : List Char → List Char × Option (List Char)
  | [] => ([], none)
  | c :: cs =>
    if c = '=' then ([], some cs)
    else
      match splitFirstEq cs with
      | (pre, rest) => (c :: pre, rest)

/-- Embeds `strings.HasPrefix(s, p)`. -/
def hasPre (p s : String) : Bool := p.data.isPrefixOf s.data

/-- Embeds `strings.TrimPrefix(s, p)`. -/
def trimPre (p s : String) : String :=
  if hasPre p s then String.mk (s.data.drop p.data.length) else s

/-- Embeds `strings.Contains(s, sub)`. -/
def containsSub (s sub : String) : Bool :=
  s.data.tails.any (fun t => sub.data.isPrefixOf t)

/-! ## Data model -/

/-- One EC2 tag (`types.Tag`): both fields are `*string` in the SDK. -/
structure Tag where
  key : Option String
  value : Option String
  deriving DecidableEq

/-- The fields of `types.Instance` the core reads. `instanceId` is kept as a
plain string: every record reaching selection has a non-empty identifier and
the code dereferences it unconditionally. -/
structure Instance where
  instanceId : String
  privateIpAddress : Option String
  publicDnsName : Option String
  publicIpAddress : Option String
  tags : List Tag
  deriving DecidableEq

/-- `SSMConfig` from the options file. -/
structure SSMConfig where
  tagKey : String
  tagValue : String
  command : String
  deriving DecidableEq

/-- The `Options` fields the pipeline reads. Regions, templates and the raw
filter list are passed to the functions that consume them. -/
structure Options where
  usePrivateIp : Bool
  profile : String
  printOnly : Bool
  ssm : SSMConfig
  deriving DecidableEq

/-! ## ec2.go: ListInstances -/

/-- One `types.Filter` sent to DescribeInstances. -/
structure GoFilter where
  name : String
  values : List String
  deriving DecidableEq

/-- The baseline lifecycle-state filter `ListInstances` always injects. -/
def baselineFilter : GoFilter :=
  ⟨"instance-state-name", ["pending", "running", "shutting-down"]⟩

/-- The error text `ListInstances` produces for a filter with no `=`
(`len(split)` is 1 in that case). -/
def filterErrMsg (f : String) : String :=
  "Filters can only contain one '='. Filter \"" ++ f ++ "\" has 1"

/-- The validation loop of `ListInstances` over `e.options.Filters`: each
filter is split at its first `=`; a filter with no `=` aborts with the error
for the first such filter; otherwise the name/value filters in order. -/
def buildUserFilters : List String → Except String (List GoFilter)
  | [] => .ok []
  | f :: fs =>
    match splitFirstEq f.data with
    | (_, none) => .error (filterErrMsg f)
    | (name, some value) =>
      match buildUserFilters fs with
      | .error e => .error e
      | .ok rest => .ok (⟨String.mk name, [String.mk value]⟩ :: rest)

instance instDecEqExceptStrInst {ε α : Type} [DecidableEq ε] [DecidableEq α] :
    DecidableEq (Except ε α) := fun x y =>
  match x, y with
  | .error a, .error b =>
    if h : a = b then .isTrue (by rw [h])
    else .isFalse (by intro hx; cases hx; exact h rfl)
  | .error _, .ok _ => .isFalse (by intro hx; cases hx)
  | .ok _, .error _ => .isFalse (by intro hx; cases hx)
  | .ok a, .ok b =>
    if h : a = b then .isTrue (by rw [h])
    else .isFalse (by intro hx; cases hx; exact h rfl)

/-- What one `ListInstances` call did: its return value, the filters it put
in the provider request (empty when no request was built), and how many
paginated provider calls it issued. -/
structure FetchTrace where
  result : Except String (List Instance)
  sentFilters : List GoFilter
  networkCalls : Nat
  deriving DecidableEq

/-- `ListInstances`: validates the user filters, then drains the paginator
(`pages` is the provider's page sequence; one network call per page) and
flattens the reservations. Validation failure returns before the paginator
is created, so no network call is issued. -/
def ListInstances (userFilters : List String) (pages : List (List Instance)) :
    FetchTrace :=
  match buildUserFilters userFilters with
  | .error e => ⟨.error e, [], 0⟩
  | .ok ufs => ⟨.ok pages.flatten, baselineFilter :: ufs, pages.length⟩

/-- Whether the fetch was rejected (returned an error). -/
def FetchTrace.isRejected : FetchTrace → Bool
  | ⟨.error _, _, _⟩ => true
  | ⟨.ok _, _, _⟩ => false

/-! ## ec2.go: connection resolution -/

/-- Embeds the Go pattern `p != nil && *p != ""`. -/
def strPtrNonEmpty : Option String → Bool
  | some s => s != ""
  | none => false

/-- The tag test inside the loop of `shouldUseSSM`: key non-nil and equal to
the configured key; then any value if no value is configured, else a non-nil,
exactly equal value. -/
def tagMatchesSSM (cfg : SSMConfig) (t : Tag) : Bool :=
  match t.key with
  | some k =>
    if k = cfg.tagKey then
      if cfg.tagValue = "" then true
      else
        match t.value with
        | some v => v = cfg.tagValue
        | none => false
    else false
  | none => false

/-- `shouldUseSSM`: false when no tag key is configured, else true iff some
tag of the instance passes `tagMatchesSSM`. -/
def shouldUseSSM (o : Options) (i : Instance) : Bool :=
  if o.ssm.tagKey = "" then false
  else i.tags.any (tagMatchesSSM o.ssm)

/-- `GetConnectionDetails`: SSM target when `shouldUseSSM`; else the private
address under private-IP policy (no public fallback); else public DNS, then
public IP, then empty (no private fallback). -/
def GetConnectionDetails (o : Options) (i : Instance) : String :=
  if shouldUseSSM o i then
    "ssm:" ++ i.instanceId
  else if o.usePrivateIp then
    if strPtrNonEmpty i.privateIpAddress then i.privateIpAddress.getD "" else ""
  else if strPtrNonEmpty i.publicDnsName then
    i.publicDnsName.getD ""
  else if strPtrNonEmpty i.publicIpAddress then
    i.publicIpAddress.getD ""
  else ""

/-- Embeds `getStringPtr`: `<nil>` for a nil pointer, the value otherwise. -/
def getStringPtr : Option String → String
  | none => "<nil>"
  | some s => s

/-! ## Spec-side resolver definitions (for refinement statements)

These two follow the wording of spec section 4.4, rules 2 and 3, to be
compared with `GetConnectionDetails`. -/

/-- Modelled from the spec, rule 2: target is the private address if present
and non-empty, else unresolvable (empty). -/
def specPrivateTarget (i : Instance) : String :=
  match i.privateIpAddress with
  | some a => if a = "" then "" else a
  | none => ""

/-- Modelled from the spec, rule 3 fallback: the public IP if present and
non-empty, else unresolvable. -/
def specPublicIp (i : Instance) : String :=
  match i.publicIpAddress with
  | some a => if a = "" then "" else a
  | none => ""

/-- Modelled from the spec, rule 3: public hostname if present and
non-empty; else the public IP if present and non-empty; else unresolvable. -/
def specPublicTarget (i : Instance) : String :=
  match i.publicDnsName with
  | some d => if d = "" then specPublicIp i else d
  | none => specPublicIp i

/-! ## Orchestrator: SSO recovery and the discovery retry loop

`Run` first fetches instances from all regions; on failure it consults
`handleSSOError` and, when that reports a successful recovery, calls itself
again (`e.Run(); return`), re-entering discovery. The external world of one
run is a sequence of aggregate fetch outcomes (one per discovery attempt)
plus the outcome of session resolution and of the external login command,
which the code reads through `getSSOSessionFromProfile` (an AWS config-file
lookup) and `exec.Command("aws", "sso", "login", ...)`. -/

/-- The external collaborators `handleSSOError` consults: the SSO session
name resolved from the profile (empty when it cannot be determined) and
whether the spawned `aws sso login` command exits successfully. -/
structure SSOEnv where
  ssoSession : String
  loginSucceeds : Bool
  deriving DecidableEq

/-- `handleSSOError`: classifies the error by the three provider substrings;
on a match, fails if the session name cannot be resolved, otherwise reports
recovery iff the external login succeeds. (Its printed messages and the
login process spawn are side effects no claim quantifies over.) -/
def handleSSOError (env : SSOEnv) (err : String) : Bool :=
  if containsSub err "failed to refresh cached credentials"
      || containsSub err "cached SSO token"
      || containsSub err "sso/cache" then
    if env.ssoSession = "" then false
    else env.loginSucceeds
  else false

/-- How the discovery phase of `Run` ended, with the number of discovery
attempts (entries of the outcome trace consumed). `hung` marks a trace that
ran out while the code would still be recursing. -/
inductive DiscoverResult where
  | discovered (instances : List Instance) (attempts : Nat)
  | fatal (err : String) (attempts : Nat)
  | hung (attempts : Nat)
  deriving DecidableEq

def DiscoverResult.attempts : DiscoverResult → Nat
  | .discovered _ n => n
  | .fatal _ n => n
  | .hung n => n

/-- The discovery/recovery loop of `Run` (lines 98-132): each trace entry is
the aggregate outcome of one discovery attempt. Success proceeds; a failure
for which `handleSSOError` reports recovery re-enters discovery (the
recursive `e.Run()`); any other failure is fatal (`panic(lastError)`). -/
def discoverLoop (env : SSOEnv) :
    List (Except String (List Instance)) → Nat → DiscoverResult
  | [], n => .hung n
  | .ok insts :: _, n => .discovered insts (n + 1)
  | .error e :: rest, n =>
    if handleSSOError env e then discoverLoop env rest (n + 1)
    else .fatal e (n + 1)

/-! ## Dispatch: effects model -/

/-- One spawned external process: executable and argument list, as passed to
`exec.Command`. -/
inductive ProcLaunch where
  | proc (exe : String) (args : List String)
  deriving DecidableEq

/-- How the run ends: a normal return (the process then exits with status
0), an explicit `os.Exit`, or a Go `panic` (runtime exit status 2). -/
inductive Termination where
  | normal
  | exit (code : Nat)
  | panicked (msg : String)
  deriving DecidableEq

/-- The numeric process exit status of a termination. -/
def Termination.exitStatus : Termination → Nat
  | .normal => 0
  | .exit c => c
  | .panicked _ => 2

/-- The observable effects of (the rest of) a run: lines printed to stdout
in order, processes spawned in order, and how the run terminated. -/
structure RunEffects where
  printed : List String
  spawned : List ProcLaunch
  term : Termination
  deriving DecidableEq

/-- The dispatch-time collaborators: whether `exec.LookPath("xpanes")`
succeeds, whether the spawned child process exits successfully, and the
error text of a failing child. -/
structure DispatchEnv where
  xpanesAvailable : Bool
  childExitOk : Bool
  childErr : String
  deriving DecidableEq

/-- The two diagnostic lines `Run` prints for a selected instance whose
connection details are empty (lines 164-168). -/
def diagLines (i : Instance) : List String :=
  ["No connection details available for selected instance " ++ i.instanceId,
   "Debug - Public DNS: " ++ getStringPtr i.publicDnsName ++
     ", Public IP: " ++ getStringPtr i.publicIpAddress ++
     ", Private IP: " ++ getStringPtr i.privateIpAddress]

/-- The resolution loop of `Run` (lines 158-173) over the selected
instances, in selection order: instances resolving to an empty target emit
their diagnostics and are skipped; the rest become `(details, isSSM)` plans,
where `isSSM` is the `strings.HasPrefix(details, "ssm:")` test. Returns
(printed diagnostics, plans). -/
def resolvePhase (o : Options) : List Instance → List String × List (String × Bool)
  | [] => ([], [])
  | inst :: rest =>
    let details := GetConnectionDetails o inst
    let r := resolvePhase o rest
    if details = "" then (diagLines inst ++ r.1, r.2)
    else (r.1, (details, hasPre "ssm:" details) :: r.2)

/-- One line of print-only output (lines 180-195): the SSM session command
with the profile appended exactly when one is set, or the ssh command. -/
def printOnlyLine (o : Options) (p : String × Bool) : String :=
  if p.2 then
    if o.profile ≠ "" then
      "aws ssm start-session --target " ++ trimPre "ssm:" p.1 ++
        " --profile " ++ o.profile
    else
      "aws ssm start-session --target " ++ trimPre "ssm:" p.1
  else
    "ssh " ++ p.1

/-- Modelled from the spec: the print-only output format, one line per
resolved plan, either `ssh <target>` or
`aws ssm start-session --target <id> [--profile <p>]`. -/
def specPrintLine (o : Options) (p : String × Bool) : String :=
  if p.2 then
    "aws ssm start-session --target " ++ trimPre "ssm:" p.1 ++
      (if o.profile = "" then "" else " --profile " ++ o.profile)
  else
    "ssh " ++ p.1

/-- The per-plan command line built for one xpanes pane (lines 215-228). -/
def xpanesCommandLine (o : Options) (p : String × Bool) : String :=
  if p.2 then
    if o.profile ≠ "" then
      "aws ssm start-session --target " ++ trimPre "ssm:" p.1 ++
        " --profile " ++ o.profile ++
        " --document-name AWS-StartInteractiveCommand --parameters " ++
        "'command=[\"" ++ o.ssm.command ++ "\"]'"
    else
      "aws ssm start-session --target " ++ trimPre "ssm:" p.1 ++
        " --document-name AWS-StartInteractiveCommand --parameters " ++
        "'command=[\"" ++ o.ssm.command ++ "\"]'"
  else
    "ssh " ++ p.1

/-- `connectToInstance` (lines 251-289): the single-plan dispatch path. For
an SSM plan it spawns `aws ssm start-session` (profile argument exactly when
one is set, then the interactive-command document and the configured startup
command); otherwise it spawns `ssh <details>`. A failing child prints the
failure and exits 1; a succeeding child lets the run return normally. -/
def connectToInstance (o : Options) (env : DispatchEnv) (details : String)
    (isSSM : Bool) : RunEffects :=
  if isSSM then
    let instanceId := trimPre "ssm:" details
    let args := ["ssm", "start-session", "--target", instanceId] ++
      (if o.profile ≠ "" then ["--profile", o.profile] else []) ++
      ["--document-name", "AWS-StartInteractiveCommand",
       "--parameters", "command=[\"" ++ o.ssm.command ++ "\"]"]
    if env.childExitOk then
      ⟨["Connecting to " ++ instanceId ++ " via SSM..."],
       [ProcLaunch.proc "aws" args], Termination.normal⟩
    else
      ⟨["Connecting to " ++ instanceId ++ " via SSM...",
        "SSM connection failed: " ++ env.childErr],
       [ProcLaunch.proc "aws" args], Termination.exit 1⟩
  else
    if env.childExitOk then
      ⟨["Connecting to " ++ details ++ "..."],
       [ProcLaunch.proc "ssh" [details]], Termination.normal⟩
    else
      ⟨["Connecting to " ++ details ++ "...",
        "SSH connection failed: " ++ env.childErr],
       [ProcLaunch.proc "ssh" [details]], Termination.exit 1⟩

/-- The dispatch of a non-empty plan list (lines 180-248): print-only mode
prints one line per plan and returns; more than one plan heads for xpanes,
falling back to `connectToInstance` on the first plan when xpanes is
missing; a single plan goes through `connectToInstance`. -/
def dispatchPlans (o : Options) (env : DispatchEnv)
    (plans : List (String × Bool)) : RunEffects :=
  if o.printOnly then
    ⟨plans.map (printOnlyLine o), [], Termination.normal⟩
  else if plans.length > 1 then
    let header := "Connecting to " ++ toString plans.length ++
      " instances using xpanes..."
    if env.xpanesAvailable then
      let call := ProcLaunch.proc "xpanes"
        (["-c", "{}"] ++ plans.map (xpanesCommandLine o))
      if env.childExitOk then
        ⟨[header], [call], Termination.normal⟩
      else
        ⟨[header, "xpanes command failed: " ++ env.childErr], [call],
         Termination.exit 1⟩
    else
      let c := connectToInstance o env (plans.headD ("", false)).1
        (plans.headD ("", false)).2
      ⟨header ::
        "Error: xpanes not found. Install with: brew install xpanes" ::
        "Falling back to single instance connection..." :: c.printed,
       c.spawned, c.term⟩
  else
    connectToInstance o env (plans.headD ("", false)).1
      (plans.headD ("", false)).2

/-- `Run` from the resolution loop on (lines 158-248): resolve each selected
instance; with zero plans report and exit 1; otherwise dispatch. -/
def runPostSelect (o : Options) (env : DispatchEnv)
    (selected : List Instance) : RunEffects :=
  if (resolvePhase o selected).2.length = 0 then
    ⟨(resolvePhase o selected).1 ++ ["No valid connection details found"],
     [], Termination.exit 1⟩
  else
    ⟨(resolvePhase o selected).1 ++
       (dispatchPlans o env (resolvePhase o selected).2).printed,
     (dispatchPlans o env (resolvePhase o selected).2).spawned,
     (dispatchPlans o env (resolvePhase o selected).2).term⟩

/-- The outcome of the interactive selection (lines 134-156): the selected
records (`Run` maps each finder index `idx` to `instances[idx]`; index
validity is the finder collaborator's contract), an explicit user abort
(`finder.ErrAbort`), or another finder failure. -/
inductive SelectOutcome where
  | selected (instances : List Instance)
  | abort
  | failure (err : String)
  deriving DecidableEq

/-- `Run` from the selection on (lines 151-248): a user abort exits 1 at
once with nothing printed and nothing spawned; another finder failure
panics; a selection proceeds to resolution and dispatch. -/
def runSelectPhase (o : Options) (env : DispatchEnv)
    (sel : SelectOutcome) : RunEffects :=
  match sel with
  | .abort => ⟨[], [], Termination.exit 1⟩
  | .failure e => ⟨[], [], Termination.panicked e⟩
  | .selected insts => runPostSelect o env insts

/-! ## Shared lemmas -/

/-- `i` with all three address fields replaced (identifier and tags kept). -/
def withAddrs (i : Instance) (priv dns ip : Option String) : Instance :=
  { i with privateIpAddress := priv, publicDnsName := dns, publicIpAddress := ip }

theorem hasPre_append (p s : String) : hasPre p (p ++ s) = true := by
  show (p.data.isPrefixOf (p.data ++ s.data)) = true
  exact List.isPrefixOf_iff_prefix.mpr (List.prefix_append _ _)

theorem shouldUseSSM_addr_irrel (o : Options) (i : Instance)
    (priv dns ip : Option String) :
    shouldUseSSM o (withAddrs i priv dns ip) = shouldUseSSM o i := rfl

theorem withAddrs_self (i : Instance) :
    withAddrs i i.privateIpAddress i.publicDnsName i.publicIpAddress = i := rfl

theorem shouldUseSSM_of_tag (o : Options) (i : Instance)
    (hk : o.ssm.tagKey ≠ "")
    (h : ∃ t ∈ i.tags, t.key = some o.ssm.tagKey ∧
      (o.ssm.tagValue = "" ∨ t.value = some o.ssm.tagValue)) :
    shouldUseSSM o i = true := by
  obtain ⟨t, ht, hkey, hval⟩ := h
  unfold shouldUseSSM
  rw [if_neg hk]
  refine List.any_eq_true.mpr ⟨t, ht, ?_⟩
  unfold tagMatchesSSM
  rw [hkey]
  rcases hval with hv | hv
  · simp [hv]
  · by_cases htv : o.ssm.tagValue = ""
    · simp [htv]
    · simp [htv, hv]

/-! ## C2: matching agent tag forces the AgentSession transport -/

/-- C2: for every instance record carrying a tag whose key equals the
configured (non-empty) agent-session tag key — and, when a tag value is
configured, whose value equals it exactly — the resolver returns the
AgentSession transport (an `ssm:`-prefixed target, which the dispatcher
classifies as an SSM plan) with target the instance identifier, whatever
the private address, public address and public hostname fields hold. -/
theorem c2_agent_tag (o : Options) (i : Instance)
    (hk : o.ssm.tagKey ≠ "")
    (h : ∃ t ∈ i.tags, t.key = some o.ssm.tagKey ∧
      (o.ssm.tagValue = "" ∨ t.value = some o.ssm.tagValue)) :
    ∀ priv dns ip : Option String,
      GetConnectionDetails o (withAddrs i priv dns ip) = "ssm:" ++ i.instanceId ∧
      hasPre "ssm:" (GetConnectionDetails o (withAddrs i priv dns ip)) = true := by
  intro priv dns ip
  have hssm : shouldUseSSM o (withAddrs i priv dns ip) = true := by
    rw [shouldUseSSM_addr_irrel]
    exact shouldUseSSM_of_tag o i hk h
  have hgcd : GetConnectionDetails o (withAddrs i priv dns ip) =
      "ssm:" ++ i.instanceId := by
    unfold GetConnectionDetails
    rw [hssm]
    simp [withAddrs]
  exact ⟨hgcd, by rw [hgcd]; exact hasPre_append _ _⟩

/-- C2 witness: Scenario B data (tag `Environment=production`, that key and
value configured), with all three address fields replaced arbitrarily. -/
theorem c2_agent_tag_witness :
    GetConnectionDetails ⟨true, "prod", false, ⟨"Environment", "production", "bash -l"⟩⟩
      (withAddrs
        ⟨"i-123", some "10.0.0.5", some "h.example", some "1.2.3.4",
          [⟨some "Environment", some "production"⟩]⟩
        none none (some "")) = "ssm:i-123" := by
  have h := (c2_agent_tag
    ⟨true, "prod", false, ⟨"Environment", "production", "bash -l"⟩⟩
    ⟨"i-123", some "10.0.0.5", some "h.example", some "1.2.3.4",
      [⟨some "Environment", some "production"⟩]⟩
    (by decide)
    ⟨⟨some "Environment", some "production"⟩, by decide, rfl, Or.inr rfl⟩
    none none (some "")).1
  exact h.trans (by decide)

/-! ## C3: private-address policy -/

/-- C3: for every record without a matching agent tag, under the
private-address policy the resolver returns exactly the spec's rule-2
target (the private address when present and non-empty, otherwise the empty
unresolvable target), and that result is unchanged under any values of the
public hostname and public IP fields — it never falls through to them. -/
theorem c3_private_policy (o : Options) (i : Instance)
    (hssm : shouldUseSSM o i = false) (hpriv : o.usePrivateIp = true) :
    GetConnectionDetails o i = specPrivateTarget i ∧
    ∀ dns ip : Option String,
      GetConnectionDetails o (withAddrs i i.privateIpAddress dns ip) =
        specPrivateTarget i := by
  have key : ∀ dns ip : Option String,
      GetConnectionDetails o (withAddrs i i.privateIpAddress dns ip) =
        specPrivateTarget i := by
    intro dns ip
    have hssm2 : shouldUseSSM o (withAddrs i i.privateIpAddress dns ip) = false :=
      (shouldUseSSM_addr_irrel o i _ _ _).trans hssm
    unfold GetConnectionDetails
    rw [hssm2, hpriv]
    show (if strPtrNonEmpty i.privateIpAddress = true
      then i.privateIpAddress.getD "" else "") = _
    cases hp : i.privateIpAddress with
    | none => simp [strPtrNonEmpty, specPrivateTarget, hp]
    | some a =>
      by_cases ha : a = "" <;>
        simp [strPtrNonEmpty, specPrivateTarget, hp, ha]
  refine ⟨?_, key⟩
  have h2 := key i.publicDnsName i.publicIpAddress
  rwa [withAddrs_self] at h2

/-- C3 witness: Scenario A's second record (instance with only public
address data) resolves to the empty target under private policy, and a
record with private IP `10.0.0.5` resolves to it. -/
theorem c3_private_policy_witness :
    GetConnectionDetails ⟨true, "", false, ⟨"", "", "bash -l"⟩⟩
      ⟨"i-b", none, some "ec2-1-2-3-4.compute.amazonaws.com", some "1.2.3.4", []⟩ = "" ∧
    GetConnectionDetails ⟨true, "", false, ⟨"", "", "bash -l"⟩⟩
      ⟨"i-a", some "10.0.0.5", none, none, []⟩ = "10.0.0.5" := by
  constructor
  · exact (c3_private_policy ⟨true, "", false, ⟨"", "", "bash -l"⟩⟩
      ⟨"i-b", none, some "ec2-1-2-3-4.compute.amazonaws.com", some "1.2.3.4", []⟩
      (by decide) rfl).1.trans (by decide)
  · exact (c3_private_policy ⟨true, "", false, ⟨"", "", "bash -l"⟩⟩
      ⟨"i-a", some "10.0.0.5", none, none, []⟩
      (by decide) rfl).1.trans (by decide)

/-! ## C4: public-address policy -/

/-- C4: for every record without a matching agent tag, under the
public-address policy the resolver returns exactly the spec's rule-3 target
(public hostname when present and non-empty, else public IP when present
and non-empty, else the empty unresolvable target), and that result is
unchanged under any value of the private-address field — it never falls
through to the private address. -/
theorem c4_public_policy (o : Options) (i : Instance)
    (hssm : shouldUseSSM o i = false) (hpub : o.usePrivateIp = false) :
    GetConnectionDetails o i = specPublicTarget i ∧
    ∀ priv : Option String,
      GetConnectionDetails o (withAddrs i priv i.publicDnsName i.publicIpAddress) =
        specPublicTarget i := by
  have key : ∀ priv : Option String,
      GetConnectionDetails o (withAddrs i priv i.publicDnsName i.publicIpAddress) =
        specPublicTarget i := by
    intro priv
    have hssm2 : shouldUseSSM o (withAddrs i priv i.publicDnsName i.publicIpAddress)
        = false := (shouldUseSSM_addr_irrel o i _ _ _).trans hssm
    unfold GetConnectionDetails
    rw [hssm2, hpub]
    show (if strPtrNonEmpty i.publicDnsName = true then i.publicDnsName.getD ""
      else if strPtrNonEmpty i.publicIpAddress = true then i.publicIpAddress.getD ""
      else "") = _
    cases hd : i.publicDnsName with
    | none =>
      cases hq : i.publicIpAddress with
      | none => simp [strPtrNonEmpty, specPublicTarget, specPublicIp, hd, hq]
      | some b =>
        by_cases hb : b = "" <;>
          simp [strPtrNonEmpty, specPublicTarget, specPublicIp, hd, hq, hb]
    | some a =>
      by_cases ha : a = ""
      · cases hq : i.publicIpAddress with
        | none => simp [strPtrNonEmpty, specPublicTarget, specPublicIp, hd, hq, ha]
        | some b =>
          by_cases hb : b = "" <;>
            simp [strPtrNonEmpty, specPublicTarget, specPublicIp, hd, hq, ha, hb]
      · simp [strPtrNonEmpty, specPublicTarget, specPublicIp, hd, ha]
  refine ⟨?_, key⟩
  have h2 := key i.privateIpAddress
  rwa [withAddrs_self] at h2

/-- C4 witness: with a hostname present the hostname wins over the public
IP; with only a public IP the IP is returned; the private address never
enters (it holds a junk value in both records). -/
theorem c4_public_policy_witness :
    GetConnectionDetails ⟨false, "", false, ⟨"", "", "bash -l"⟩⟩
      ⟨"i-c", some "10.9.9.9", some "h.example", some "1.2.3.4", []⟩ = "h.example" ∧
    GetConnectionDetails ⟨false, "", false, ⟨"", "", "bash -l"⟩⟩
      ⟨"i-d", some "10.9.9.9", none, some "1.2.3.4", []⟩ = "1.2.3.4" := by
  constructor
  · exact (c4_public_policy ⟨false, "", false, ⟨"", "", "bash -l"⟩⟩
      ⟨"i-c", some "10.9.9.9", some "h.example", some "1.2.3.4", []⟩
      (by decide) rfl).1.trans (by decide)
  · exact (c4_public_policy ⟨false, "", false, ⟨"", "", "bash -l"⟩⟩
      ⟨"i-d", some "10.9.9.9", none, some "1.2.3.4", []⟩
      (by decide) rfl).1.trans (by decide)

/-! ## Filter-splitting lemmas (ListInstances validation) -/

theorem splitFirstEq_of_not_mem (l : List Char) (h : '=' ∉ l) :
    splitFirstEq l = (l, none) := by
  induction l with
  | nil => rfl
  | cons c cs ih =>
    have hc : ¬ c = '=' := fun hc => h (by rw [hc]; exact List.mem_cons_self _ _)
    simp only [splitFirstEq, if_neg hc,
      ih (fun hm => h (List.mem_cons_of_mem _ hm))]

theorem splitFirstEq_append (a b : List Char) (h : '=' ∉ a) :
    splitFirstEq (a ++ '=' :: b) = (a, some b) := by
  induction a with
  | nil => simp [splitFirstEq]
  | cons c cs ih =>
    have hc : ¬ c = '=' := fun hc => h (by rw [hc]; exact List.mem_cons_self _ _)
    simp only [List.cons_append, splitFirstEq, if_neg hc, List.append_eq,
      ih (fun hm => h (List.mem_cons_of_mem _ hm))]

theorem splitFirstEq_snd_isSome (l : List Char) (h : '=' ∈ l) :
    ∃ pre rest, splitFirstEq l = (pre, some rest) := by
  induction l with
  | nil => cases h
  | cons c cs ih =>
    by_cases hc : c = '='
    · exact ⟨[], cs, by simp [splitFirstEq, hc]⟩
    · have hm : '=' ∈ cs := by
        rcases List.mem_cons.mp h with h1 | h2
        · exact absurd h1.symm hc
        · exact h2
      obtain ⟨pre, rest, hsp⟩ := ih hm
      exact ⟨c :: pre, rest, by simp [splitFirstEq, if_neg hc, hsp]⟩

theorem buildUserFilters_err_head (f : String) (fs : List String)
    (h : '=' ∉ f.data) :
    buildUserFilters (f :: fs) = .error (filterErrMsg f) := by
  simp [buildUserFilters, splitFirstEq_of_not_mem f.data h]

theorem buildUserFilters_cons_ok (f : String) (fs : List String)
    (pre rest : List Char) (hsp : splitFirstEq f.data = (pre, some rest)) :
    buildUserFilters (f :: fs) =
      match buildUserFilters fs with
      | .error e => .error e
      | .ok r => .ok (⟨String.mk pre, [String.mk rest]⟩ :: r) := by
  simp [buildUserFilters, hsp]

theorem buildUserFilters_append_err (pre : List String) (f : String)
    (post : List String) (hf : '=' ∉ f.data)
    (hpre : ∀ g ∈ pre, '=' ∈ g.data) :
    buildUserFilters (pre ++ f :: post) = .error (filterErrMsg f) := by
  induction pre with
  | nil => exact buildUserFilters_err_head f post hf
  | cons g gs ih =>
    obtain ⟨p, r, hsp⟩ :=
      splitFirstEq_snd_isSome g.data (hpre g (List.mem_cons_self _ _))
    rw [List.cons_append, buildUserFilters_cons_ok g _ p r hsp,
      ih (fun x hx => hpre x (List.mem_cons_of_mem _ hx))]

theorem buildUserFilters_error_iff (fs : List String) :
    (∃ e, buildUserFilters fs = .error e) ↔ ∃ f ∈ fs, '=' ∉ f.data := by
  induction fs with
  | nil => simp [buildUserFilters]
  | cons f fs ih =>
    by_cases hm : '=' ∈ f.data
    · obtain ⟨p, r, hsp⟩ := splitFirstEq_snd_isSome f.data hm
      rw [buildUserFilters_cons_ok f fs p r hsp]
      constructor
      · rintro ⟨e, he⟩
        cases hb : buildUserFilters fs with
        | error e2 =>
          obtain ⟨g, hg, hgm⟩ := ih.mp ⟨e2, hb⟩
          exact ⟨g, List.mem_cons_of_mem _ hg, hgm⟩
        | ok r2 =>
          rw [hb] at he
          exact absurd he (by simp)
      · rintro ⟨g, hg, hgm⟩
        rcases List.mem_cons.mp hg with h1 | h2
        · rw [h1] at hgm
          exact absurd hm hgm
        · obtain ⟨e, he⟩ := ih.mpr ⟨g, h2, hgm⟩
          rw [he]
          exact ⟨e, rfl⟩
    · rw [buildUserFilters_err_head f fs hm]
      exact ⟨fun _ => ⟨f, List.mem_cons_self f fs, hm⟩,
        fun _ => ⟨filterErrMsg f, rfl⟩⟩

theorem listInstances_rejected_iff (fs : List String)
    (pages : List (List Instance)) :
    (ListInstances fs pages).isRejected = true ↔
      ∃ e, buildUserFilters fs = .error e := by
  cases hb : buildUserFilters fs with
  | error e => simp [ListInstances, hb, FetchTrace.isRejected]
  | ok r => simp [ListInstances, hb, FetchTrace.isRejected]

/-! ## C5: malformed-filter rejection -/

/-- C5 counterexample: the claim, read as stated — every filter string with
a number of `=` other than one is rejected before any network call — is
false: `"a=b=c"` carries two `=` and is accepted (the provider request is
issued with the remainder after the first `=` as the value). -/
theorem c5_counterexample :
    ¬ (∀ (f : String) (pages : List (List Instance)),
        f.data.count '=' ≠ 1 →
        (ListInstances [f] pages).isRejected = true ∧
        (ListInstances [f] pages).networkCalls = 0) := by
  intro h
  have h2 := h "a=b=c" [[]] (by decide)
  exact absurd h2.1 (by decide)

/-- C5 as amended: for every filter string containing no `=` at all, the
fetch rejects the run with the descriptive error naming the first such
filter, issues no network call, builds no provider request and returns no
instances. (Filters with one or more `=` pass validation; see C10.) -/
theorem c5_reject_no_eq (pre : List String) (f : String) (post : List String)
    (pages : List (List Instance)) (hf : '=' ∉ f.data)
    (hpre : ∀ g ∈ pre, '=' ∈ g.data) :
    ListInstances (pre ++ f :: post) pages =
      ⟨.error (filterErrMsg f), [], 0⟩ := by
  unfold ListInstances
  rw [buildUserFilters_append_err pre f post hf hpre]

/-- C5 witness: the single filter `Name` (no `=`) is rejected with the
exact error text and zero provider calls. -/
theorem c5_reject_no_eq_witness :
    ListInstances ["Name"] [[⟨"i-x", none, none, none, []⟩]] =
      ⟨.error "Filters can only contain one '='. Filter \"Name\" has 1",
       [], 0⟩ := by
  exact (c5_reject_no_eq [] "Name" [] [[⟨"i-x", none, none, none, []⟩]]
    (by decide) (by simp)).trans (by decide)

/-! ## C10: acceptance and first-`=` split -/

/-- C10: every filter string containing at least one `=` is accepted, and
the built filter's name is the text before the first `=` while its value is
the entire remainder (further `=` included); a fetch is rejected exactly
when some filter contains no `=` at all. -/
theorem c10_filter_split :
    (∀ (a b : List Char) (pages : List (List Instance)), '=' ∉ a →
      ListInstances [String.mk (a ++ '=' :: b)] pages =
        ⟨.ok pages.flatten,
         [baselineFilter, ⟨String.mk a, [String.mk b]⟩], pages.length⟩) ∧
    (∀ (fs : List String) (pages : List (List Instance)),
      (ListInstances fs pages).isRejected = true ↔ ∃ f ∈ fs, '=' ∉ f.data) := by
  constructor
  · intro a b pages ha
    have hsp : splitFirstEq (String.mk (a ++ '=' :: b)).data = (a, some b) :=
      splitFirstEq_append a b ha
    unfold ListInstances
    rw [buildUserFilters_cons_ok (String.mk (a ++ '=' :: b)) [] a b hsp]
    simp [buildUserFilters]
  · intro fs pages
    exact (listInstances_rejected_iff fs pages).trans
      (buildUserFilters_error_iff fs)

/-- C10 witness: the filter `tag:Name=foo=bar` (two `=`) is accepted; the
built filter is named `tag:Name` with value `foo=bar`, and the paginated
request is issued. -/
theorem c10_filter_split_witness :
    ListInstances [String.mk ("tag:Name".data ++ '=' :: "foo=bar".data)]
      [[⟨"i-x", none, none, none, []⟩]] =
      ⟨.ok [⟨"i-x", none, none, none, []⟩],
       [baselineFilter, ⟨"tag:Name", ["foo=bar"]⟩], 1⟩ := by
  exact (c10_filter_split.1 "tag:Name".data "foo=bar".data
    [[⟨"i-x", none, none, none, []⟩]] (by decide)).trans (by decide)

/-! ## C1: the recovery/retry loop of Run -/

theorem discoverLoop_cons_error (env : SSOEnv) (e : String)
    (rest : List (Except String (List Instance))) (n : Nat) :
    discoverLoop env (.error e :: rest) n =
      if handleSSOError env e then discoverLoop env rest (n + 1)
      else .fatal e (n + 1) := rfl

/-- An environment in which SSO recovery always succeeds: a session name
resolves and the external login exits successfully. -/
def c1Env : SSOEnv := ⟨"my-sso", true⟩

/-- An aggregate fetch error recognized by `handleSSOError`. -/
def c1Err : String :=
  "operation error EC2: DescribeInstances, failed to refresh cached " ++
    "credentials, the SSO session has expired or is invalid"

/-- Two consecutive discovery failures, both recoverable, then a success. -/
def c1Trace : List (Except String (List Instance)) :=
  [.error c1Err, .error c1Err, .ok []]

/-- C1 counterexample: it is not true that every run makes at most two
discovery attempts. When the retried discovery fails again with a
recoverable SSO error and the external login succeeds again, `Run` recurses
a second time: on `c1Trace` the code performs a third discovery attempt
(and succeeds) instead of treating the second failure as fatal. -/
theorem c1_counterexample :
    ¬ (∀ (env : SSOEnv) (trace : List (Except String (List Instance))),
        (discoverLoop env trace 0).attempts ≤ 2) := by
  intro h
  have h2 := h c1Env c1Trace
  rw [show discoverLoop c1Env c1Trace 0 = .discovered [] 3 from by decide] at h2
  exact absurd h2 (by decide)

/-- C1 as amended: recovery is re-attempted after every recoverable
discovery failure, with no bound — after `k` consecutive failures that
`handleSSOError` recovers, a `(k+1)`-th discovery attempt is made (first
conjunct); a failure that `handleSSOError` does not recover is fatal at
once (second conjunct). The claimed once-per-run cap does not exist in the
code. -/
theorem c1_retry_after_recovery :
    (∀ (env : SSOEnv) (e : String) (insts : List Instance) (k n : Nat),
      handleSSOError env e = true →
      discoverLoop env (List.replicate k (.error e) ++ [.ok insts]) n =
        .discovered insts (n + k + 1)) ∧
    (∀ (env : SSOEnv) (e : String)
      (rest : List (Except String (List Instance))) (n : Nat),
      handleSSOError env e = false →
      discoverLoop env (.error e :: rest) n = .fatal e (n + 1)) := by
  constructor
  · intro env e insts k
    induction k with
    | zero =>
      intro n hrec
      simp [discoverLoop]
    | succ k ih =>
      intro n hrec
      rw [List.replicate_succ, List.cons_append, discoverLoop_cons_error,
        if_pos hrec, ih (n + 1) hrec]
      congr 1
      omega
  · intro env e rest n hrec
    rw [discoverLoop_cons_error, if_neg (by simp [hrec])]

/-- C1 amended-claim witness: on two recoverable failures followed by a
success, discovery runs three times and the run proceeds with the third
attempt's instances. -/
theorem c1_retry_after_recovery_witness :
    discoverLoop c1Env (List.replicate 2 (.error c1Err) ++ [.ok []]) 0 =
      .discovered [] 3 := by
  exact c1_retry_after_recovery.1 c1Env c1Err [] 2 0 (by decide)

/-! ## Resolution and dispatch lemmas -/

theorem resolvePhase_cons (o : Options) (inst : Instance) (rest : List Instance) :
    resolvePhase o (inst :: rest) =
      if GetConnectionDetails o inst = "" then
        (diagLines inst ++ (resolvePhase o rest).1, (resolvePhase o rest).2)
      else
        ((resolvePhase o rest).1,
         (GetConnectionDetails o inst,
           hasPre "ssm:" (GetConnectionDetails o inst)) ::
           (resolvePhase o rest).2) := rfl

theorem resolvePhase_fst (o : Options) (sel : List Instance) :
    (resolvePhase o sel).1 =
      sel.flatMap (fun i =>
        if GetConnectionDetails o i = "" then diagLines i else []) := by
  induction sel with
  | nil => rfl
  | cons a l ih =>
    rw [resolvePhase_cons, List.flatMap_cons]
    by_cases h : GetConnectionDetails o a = "" <;> simp [h, ih]

theorem resolvePhase_snd (o : Options) (sel : List Instance) :
    (resolvePhase o sel).2 =
      sel.flatMap (fun i =>
        if GetConnectionDetails o i = "" then []
        else [(GetConnectionDetails o i,
          hasPre "ssm:" (GetConnectionDetails o i))]) := by
  induction sel with
  | nil => rfl
  | cons a l ih =>
    rw [resolvePhase_cons, List.flatMap_cons]
    by_cases h : GetConnectionDetails o a = "" <;> simp [h, ih]

theorem resolvePhase_snd_nil_iff (o : Options) (sel : List Instance) :
    (resolvePhase o sel).2 = [] ↔
      ∀ i ∈ sel, GetConnectionDetails o i = "" := by
  induction sel with
  | nil => simp [resolvePhase]
  | cons a l ih =>
    rw [resolvePhase_cons]
    by_cases h : GetConnectionDetails o a = "" <;>
      simp [h, ih, List.forall_mem_cons]

theorem runPostSelect_zero (o : Options) (env : DispatchEnv)
    (selected : List Instance) (h : (resolvePhase o selected).2 = []) :
    runPostSelect o env selected =
      ⟨(resolvePhase o selected).1 ++ ["No valid connection details found"],
       [], Termination.exit 1⟩ := by
  unfold runPostSelect
  rw [h]
  simp

theorem runPostSelect_dispatch (o : Options) (env : DispatchEnv)
    (selected : List Instance) (p : String × Bool) (ps : List (String × Bool))
    (h : (resolvePhase o selected).2 = p :: ps) :
    runPostSelect o env selected =
      ⟨(resolvePhase o selected).1 ++ (dispatchPlans o env (p :: ps)).printed,
       (dispatchPlans o env (p :: ps)).spawned,
       (dispatchPlans o env (p :: ps)).term⟩ := by
  unfold runPostSelect
  rw [h]
  simp

theorem connectToInstance_spawn_one (o : Options) (env : DispatchEnv)
    (details : String) (isSSM : Bool) :
    (connectToInstance o env details isSSM).spawned.length = 1 := by
  cases isSSM <;> cases hc : env.childExitOk <;>
    simp [connectToInstance, hc]

theorem printOnlyLine_eq_spec (o : Options) (q : String × Bool) :
    printOnlyLine o q = specPrintLine o q := by
  unfold printOnlyLine specPrintLine
  by_cases h2 : q.2 = true
  · by_cases hp : o.profile = ""
    · simp [h2, hp, String.append_empty]
    · simp [h2, hp, String.append_assoc]
  · simp [h2]

/-! ## C6: user abort during selection -/

def c6Opts : Options := ⟨true, "", false, ⟨"", "", "bash -l"⟩⟩

def c6Env : DispatchEnv := ⟨false, true, ""⟩

def c6Inst : Instance := ⟨"i-bad", none, none, none, []⟩

/-- C6 counterexample: the abort path exits with status 1, but 1 is not a
status distinct from the other failure paths — the all-instances-excluded
failure (the "no valid connection details" path) terminates with the very
same status 1 on a concrete run. -/
theorem c6_counterexample :
    (runSelectPhase c6Opts c6Env SelectOutcome.abort).term =
      Termination.exit 1 ∧
    (runSelectPhase c6Opts c6Env (SelectOutcome.selected [c6Inst])).term =
      Termination.exit 1 :=
  ⟨by decide, by decide⟩

/-- C6 as amended: when the interactive selection is aborted by the user the
run terminates immediately with the non-zero exit status 1 — a status shared
with other failure paths rather than distinct from them — and performs no
further side effects: nothing further is printed and no process is
spawned. -/
theorem c6_abort_exit (o : Options) (env : DispatchEnv) :
    runSelectPhase o env SelectOutcome.abort =
      ⟨[], [], Termination.exit 1⟩ ∧
    (runSelectPhase o env SelectOutcome.abort).term.exitStatus ≠ 0 :=
  ⟨rfl, Nat.one_ne_zero⟩

/-! ## C7: per-instance resolution gaps -/

/-- C7: resolution is applied per selected instance in selection order; each
instance resolving to the empty target is reported with its identifier and
raw address fields (`diagLines`) and excluded from the plans; the plan list
is empty exactly when every selected instance is excluded; in that case the
run prints "No valid connection details found" and exits 1, and otherwise
it proceeds to dispatch exactly the surviving plans, in order, after the
diagnostics. -/
theorem c7_resolution_gaps (o : Options) (env : DispatchEnv)
    (selected : List Instance) :
    ((resolvePhase o selected).1 =
      selected.flatMap (fun i =>
        if GetConnectionDetails o i = "" then diagLines i else [])) ∧
    ((resolvePhase o selected).2 =
      selected.flatMap (fun i =>
        if GetConnectionDetails o i = "" then []
        else [(GetConnectionDetails o i,
          hasPre "ssm:" (GetConnectionDetails o i))])) ∧
    ((resolvePhase o selected).2 = [] ↔
      ∀ i ∈ selected, GetConnectionDetails o i = "") ∧
    ((resolvePhase o selected).2 = [] →
      runPostSelect o env selected =
        ⟨(resolvePhase o selected).1 ++ ["No valid connection details found"],
         [], Termination.exit 1⟩) ∧
    (∀ p ps, (resolvePhase o selected).2 = p :: ps →
      runPostSelect o env selected =
        ⟨(resolvePhase o selected).1 ++ (dispatchPlans o env (p :: ps)).printed,
         (dispatchPlans o env (p :: ps)).spawned,
         (dispatchPlans o env (p :: ps)).term⟩) :=
  ⟨resolvePhase_fst o selected, resolvePhase_snd o selected,
   resolvePhase_snd_nil_iff o selected,
   fun h => runPostSelect_zero o env selected h,
   fun p ps h => runPostSelect_dispatch o env selected p ps h⟩

/-- C7 witness: one selected instance with only public address data under
private policy — it is reported with identifier and raw fields, every
instance is excluded, and the run fails with the message and status 1. -/
theorem c7_resolution_gaps_witness :
    runPostSelect ⟨true, "", false, ⟨"", "", "bash -l"⟩⟩ ⟨false, true, ""⟩
      [⟨"i-a", none, some "h.example", some "1.2.3.4", []⟩] =
      ⟨["No connection details available for selected instance i-a",
        "Debug - Public DNS: h.example, Public IP: 1.2.3.4, Private IP: <nil>",
        "No valid connection details found"], [], Termination.exit 1⟩ := by
  have h := (c7_resolution_gaps ⟨true, "", false, ⟨"", "", "bash -l"⟩⟩
    ⟨false, true, ""⟩
    [⟨"i-a", none, some "h.example", some "1.2.3.4", []⟩]).2.2.2.1 (by decide)
  exact h.trans (by decide)

/-! ## C8: print-only mode -/

/-- C8: in print-only mode, for every non-empty plan list the run prints
(after the per-exclusion diagnostics) exactly one line per plan in selection
order, spawns no process, and returns normally (process exit status 0);
every line is exactly the spec's format — `ssh <target>`, or
`aws ssm start-session --target <id>` with ` --profile <p>` appended exactly
when a profile is set. -/
theorem c8_print_only (o : Options) (env : DispatchEnv)
    (selected : List Instance) (p : String × Bool) (ps : List (String × Bool))
    (hprint : o.printOnly = true)
    (hplans : (resolvePhase o selected).2 = p :: ps) :
    runPostSelect o env selected =
      ⟨(resolvePhase o selected).1 ++ (p :: ps).map (printOnlyLine o), [],
       Termination.normal⟩ ∧
    Termination.normal.exitStatus = 0 ∧
    ∀ q : String × Bool, printOnlyLine o q = specPrintLine o q := by
  refine ⟨?_, rfl, printOnlyLine_eq_spec o⟩
  rw [runPostSelect_dispatch o env selected p ps hplans]
  simp [dispatchPlans, hprint]

/-- C8 witness: Scenario E — print-only with one AgentSession plan
(identifier `i-123`, profile `prod`) emits exactly
`aws ssm start-session --target i-123 --profile prod`, spawns nothing, and
returns normally. -/
theorem c8_print_only_witness :
    runPostSelect ⟨true, "prod", true, ⟨"Environment", "", "bash -l"⟩⟩
      ⟨true, true, ""⟩
      [⟨"i-123", none, none, none, [⟨some "Environment", some "production"⟩]⟩] =
      ⟨["aws ssm start-session --target i-123 --profile prod"], [],
       Termination.normal⟩ := by
  have h := (c8_print_only ⟨true, "prod", true, ⟨"Environment", "", "bash -l"⟩⟩
    ⟨true, true, ""⟩
    [⟨"i-123", none, none, none, [⟨some "Environment", some "production"⟩]⟩]
    ("ssm:i-123", true) [] rfl (by decide)).1
  exact h.trans (by decide)

/-! ## C9: xpanes degradation -/

/-- C9: with more than one plan in interactive mode and the xpanes helper
unavailable, the dispatcher prints the degradation (the xpanes-missing error
and the fallback notice) and dispatches exactly the first plan through the
single-plan path `connectToInstance`, which spawns exactly one process; no
other plan is dispatched. -/
theorem c9_xpanes_fallback (o : Options) (env : DispatchEnv)
    (selected : List Instance) (p q : String × Bool)
    (ps : List (String × Bool))
    (hprint : o.printOnly = false) (hx : env.xpanesAvailable = false)
    (hplans : (resolvePhase o selected).2 = p :: q :: ps) :
    runPostSelect o env selected =
      ⟨(resolvePhase o selected).1 ++
        (("Connecting to " ++ toString (p :: q :: ps).length ++
            " instances using xpanes...") ::
          "Error: xpanes not found. Install with: brew install xpanes" ::
          "Falling back to single instance connection..." ::
          (connectToInstance o env p.1 p.2).printed),
       (connectToInstance o env p.1 p.2).spawned,
       (connectToInstance o env p.1 p.2).term⟩ ∧
    (connectToInstance o env p.1 p.2).spawned.length = 1 := by
  refine ⟨?_, connectToInstance_spawn_one o env p.1 p.2⟩
  rw [runPostSelect_dispatch o env selected p (q :: ps) hplans]
  have hd : dispatchPlans o env (p :: q :: ps) =
      ⟨("Connecting to " ++ toString (p :: q :: ps).length ++
          " instances using xpanes...") ::
        "Error: xpanes not found. Install with: brew install xpanes" ::
        "Falling back to single instance connection..." ::
        (connectToInstance o env p.1 p.2).printed,
       (connectToInstance o env p.1 p.2).spawned,
       (connectToInstance o env p.1 p.2).term⟩ := by
    unfold dispatchPlans
    rw [hprint]
    simp only [Bool.false_eq_true, if_false]
    rw [if_pos (by simp only [List.length_cons]; omega)]
    rw [hx]
    simp only [Bool.false_eq_true, if_false, List.headD_cons]
  rw [hd]

/-- C9 witness: Scenario D — two direct-shell plans, xpanes missing: the
degradation is logged and exactly one `ssh` process is spawned, for the
first plan only. -/
theorem c9_xpanes_fallback_witness :
    runPostSelect ⟨true, "", false, ⟨"", "", "bash -l"⟩⟩ ⟨false, true, ""⟩
      [⟨"i-a", some "10.0.0.5", none, none, []⟩,
       ⟨"i-b", some "10.0.0.6", none, none, []⟩] =
      ⟨["Connecting to 2 instances using xpanes...",
        "Error: xpanes not found. Install with: brew install xpanes",
        "Falling back to single instance connection...",
        "Connecting to 10.0.0.5..."],
       [ProcLaunch.proc "ssh" ["10.0.0.5"]], Termination.normal⟩ := by
  have h := (c9_xpanes_fallback ⟨true, "", false, ⟨"", "", "bash -l"⟩⟩
    ⟨false, true, ""⟩
    [⟨"i-a", some "10.0.0.5", none, none, []⟩,
     ⟨"i-b", some "10.0.0.6", none, none, []⟩]
    ("10.0.0.5", false) ("10.0.0.6", false) [] rfl rfl (by decide)).1
  exact h.trans (by decide)

end Ec2ssh
